import Mathlib

/-!
Verification of the qubes-ansible proxy dispatch engine
(`plugins/strategy/qubes_proxy.py`) against its natural-language
specification.

The Python module is shallowly embedded: byte strings become `List Nat`,
the two policy files become lists of whitespace-token lists, and the
per-host session `QubesPlayExecutor.run` becomes an explicit
state-transformer driven by an `Oracle` recording which fallible external
steps succeed.  Each definition is translated from the source file, with
the originating Python construct noted in its doc comment.
-/

/- ================================================================
   Output Sanitizer — `filter_control_chars` (qubes_proxy.py lines 60-103)
   ================================================================ -/

/-- The replacement byte `b"_"` (0x5f) used by `filter_control_chars`. -/
def placeholderByte : Nat := 0x5f

/-- The per-byte test of `filter_control_chars` (lines 91-98):
`b"\040" <= current_byte <= b"\176"` or membership in
`(b"\a", b"\b", b"\n", b"\r", b"\t")`. -/
def isSafeByte (b : Nat) : Bool :=
  (0x20 ≤ b && b ≤ 0x7e) || b == 0x07 || b == 0x08 || b == 0x0a || b == 0x0d || b == 0x09

/-- `filter_control_chars(text)` (lines 60-103).  The scan first checks the
SGR-reset prefix `b"\x1b[0m"` (line 65), then the 7-byte foreground-color
form `ESC [ attr ; 3 d m` with `attr in (0x30, 0x31)` and `0x30 <= d <= 0x37`
(lines 71-85; the byte checks `text[6:7] == b"m"`, `text[2] in (0x30, 0x31)`,
`text[3] == 0x3B`, `text[4] == 0x33`, `0x30 <= text[5] <= 0x37` appear in the
guard), and otherwise copies a safe byte or emits `b"_"` (lines 91-102). -/
def filter_control_chars : List Nat → List Nat
  | [] => []
  | 0x1b :: 0x5b :: 0x30 :: 0x6d :: rest =>
      0x1b :: 0x5b :: 0x30 :: 0x6d :: filter_control_chars rest
  | 0x1b :: 0x5b :: a :: s :: t :: c :: m :: rest =>
      if m == 0x6d && (a == 0x30 || a == 0x31) && s == 0x3b && t == 0x33
          && (0x30 ≤ c && c ≤ 0x37) then
        0x1b :: 0x5b :: a :: s :: t :: c :: m :: filter_control_chars rest
      else
        (if isSafeByte 0x1b then 0x1b else placeholderByte)
          :: filter_control_chars (0x5b :: a :: s :: t :: c :: m :: rest)
  | b :: rest =>
      (if isSafeByte b then b else placeholderByte) :: filter_control_chars rest

/-- Byte classes of the spec's sanitizer contract (§4.5): printable ASCII
0x20-0x7E, or one of bell, backspace, newline, carriage return, tab. -/
def specPassByte (b : Nat) : Bool :=
  (0x20 ≤ b && b ≤ 0x7e) || ([0x07, 0x08, 0x0a, 0x0d, 0x09].contains b)

/-- The Output Sanitizer as worded in the spec (§4.5 and claim C7): a single
forward scan that passes the SGR-reset sequence verbatim, passes the 7-byte
sequence `ESC [ a ; 3 c m` with `a ∈ {0,1}` and `c ∈ {0..7}` (as digit
bytes) verbatim, passes printable/whitelisted bytes, and replaces every
other byte 1:1 with the placeholder. -/
def sanitizeSpec : List Nat → List Nat
  | [] => []
  | 0x1b :: 0x5b :: 0x30 :: 0x6d :: rest =>
      0x1b :: 0x5b :: 0x30 :: 0x6d :: sanitizeSpec rest
  | 0x1b :: 0x5b :: a :: s :: t :: c :: m :: rest =>
      if (a = 0x30 ∨ a = 0x31) ∧ s = 0x3b ∧ t = 0x33 ∧ (0x30 ≤ c ∧ c ≤ 0x37) ∧ m = 0x6d then
        0x1b :: 0x5b :: a :: s :: t :: c :: m :: sanitizeSpec rest
      else
        placeholderByte :: sanitizeSpec (0x5b :: a :: s :: t :: c :: m :: rest)
  | b :: rest =>
      (if specPassByte b then b else placeholderByte) :: sanitizeSpec rest

/-- Shapes of byte lists the sanitizer can emit: a pass-through sequence,
then a clean tail, or a safe byte (the placeholder is itself safe), then a
clean tail. -/
inductive CleanOut : List Nat → Prop
  | nil : CleanOut []
  | reset (rest : List Nat) : CleanOut rest →
      CleanOut (0x1b :: 0x5b :: 0x30 :: 0x6d :: rest)
  | color (a c : Nat) (rest : List Nat) :
      (a = 0x30 ∨ a = 0x31) → 0x30 ≤ c → c ≤ 0x37 → CleanOut rest →
      CleanOut (0x1b :: 0x5b :: a :: 0x3b :: 0x33 :: c :: 0x6d :: rest)
  | safe (b : Nat) (rest : List Nat) : isSafeByte b = true → CleanOut rest →
      CleanOut (b :: rest)

/- ================================================================
   Authorization Policy Store — `_add_rpc_policies` (lines 290-334)
   and `_remove_rpc_policies` (lines 377-415)
   ================================================================ -/

/-- A policy-file line, modelled as its list of whitespace-separated
fields (the files are line-oriented, whitespace-delimited ASCII; a
trailing field stands in for the `\s+` the removal regexes require after
the last matched token). -/
abbrev PolicyLine := List String

/-- The two policy files mutated by the strategy:
`RPC_INCLUDE_POL_FILE` (`/etc/qubes/policy.d/include/qubes-ansible`) and
`RPC_ANSIBLE_POL_FILE` (`/etc/qubes/policy.d/30-qubes-ansible.policy`). -/
structure PolicyState where
  includeFile : List PolicyLine
  ansibleFile : List PolicyLine
deriving DecidableEq, Repr

/-- `DISPVM_NAME_MAXLEN` (line 53). -/
def DISPVM_NAME_MAXLEN : Nat := 31

/-- `dispvm_mgmt_name` (lines 134-136):
`f"disp-mgmt-{self.host_name}"[:DISPVM_NAME_MAXLEN]` — Python slices by
character, modelled on the character list of the string. -/
def dispvm_mgmt_name (host_name : String) : String :=
  String.mk ((("disp-mgmt-" ++ host_name).data).take DISPVM_NAME_MAXLEN)

/-- The single line `f"{src} {dst} allow target=dom0"` appended to the
include file by `_add_rpc_policies` (line 305). -/
def includeGrantLine (src dst : String) : PolicyLine :=
  [src, dst, "allow", "target=dom0"]

/-- The five capability lines appended to the ansible policy file by
`_add_rpc_policies` (lines 323-329). -/
def ansibleGrantLines (src dst : String) : List PolicyLine :=
  [["qubes.Filecopy", "*", src, dst, "allow"],
   ["qubes.WaitForSession", "*", src, dst, "allow"],
   ["qubes.VMShell", "*", src, dst, "allow"],
   ["qubes.VMRootShell", "*", src, dst, "allow"],
   ["admin.vm.List", "*", src, "dom0", "allow"]]

/-- `_add_rpc_policies` (lines 290-334): append the grant lines to both
files (the lock/fstat retry loop serialises the mutation; its effect on
the file content is the append). -/
def add_rpc_policies (src dst : String) (st : PolicyState) : PolicyState :=
  { includeFile := st.includeFile ++ [includeGrantLine src dst],
    ansibleFile := st.ansibleFile ++ ansibleGrantLines src dst }

/-- The removal test of `_remove_rpc_policies` for the include file
(lines 389-392): `re.match(rf"^\s*{src}\s+{dst}\s+", line)`, i.e. first
field `src`, second field `dst`, and at least one further whitespace
(modelled as a third field). -/
def includeLineMatches (src dst : String) (line : PolicyLine) : Bool :=
  match line with
  | f1 :: f2 :: _ :: _ => f1 == src && f2 == dst
  | _ => false

/-- The removal test of `_remove_rpc_policies` for the ansible policy file
(lines 407-410): `re.match(rf"^\s*\S+\s+\S+\s+{src}\s+", line)`, i.e. the
THIRD field equals `src` — the destination field is not inspected. -/
def ansibleLineMatches (src : String) (line : PolicyLine) : Bool :=
  match line with
  | _ :: _ :: f3 :: _ :: _ => f3 == src
  | _ => false

/-- `_remove_rpc_policies` (lines 377-415): keep, in each file, exactly
the lines its removal regex does not match. -/
def remove_rpc_policies (src dst : String) (st : PolicyState) : PolicyState :=
  { includeFile := st.includeFile.filter (fun line => !(includeLineMatches src dst line)),
    ansibleFile := st.ansibleFile.filter (fun line => !(ansibleLineMatches src line)) }

/-- Spec-side predicate (§4.4, §6 wire format): a line of the include file
carries the (subject, object) pair in its first two fields. -/
def specIncludePairMatch (subject obj : String) (line : PolicyLine) : Bool :=
  match line with
  | f1 :: f2 :: _ :: _ => f1 == subject && f2 == obj
  | _ => false

/-- Spec-side predicate (§4.4, §6 wire format): a capability line
`<service> <argument> <subject> <object> allow` carries the
(subject, object) pair in its third and fourth fields. -/
def specCapabilityPairMatch (subject obj : String) (line : PolicyLine) : Bool :=
  match line with
  | _ :: _ :: f3 :: f4 :: _ => f3 == subject && f4 == obj
  | _ => false

/- ================================================================
   Host Session — `QubesPlayExecutor` (lines 106-519)
   ================================================================ -/

/-- Success/failure of the fallible external steps of one
`QubesPlayExecutor.run` call.  Policy-file mutation and the in-`finally`
cleanup primitives are local file/VM operations modelled as total;
`returncode` is the remote exit code `p.returncode` when the RPC pair
completes. -/
structure Oracle where
  /-- `self.app.domains.get(self.host_name)` finds the target (line 441). -/
  vmFound : Bool
  /-- `self.vm.is_running()` — the TARGET's power state (line 433). -/
  vmRunning : Bool
  /-- `self.app.domains.get(self.dispvm_mgmt_name)` finds the sandbox (line 419). -/
  dispvmFound : Bool
  /-- the sandbox's power state before the session. -/
  dispvmRunning : Bool
  /-- `self.temp_dir.mkdir()` succeeds (line 449). -/
  mkdirOk : Bool
  /-- `_add_play/_add_roles/_add_host_vars/_add_inventory` succeed (lines 452-455). -/
  prepOk : Bool
  /-- `_build_tar` succeeds (line 456). -/
  tarOk : Bool
  /-- the `qubes.Filecopy` and `qubes.AnsibleVM` calls complete (lines 460-478). -/
  rpcOk : Bool
  /-- `p.returncode` of the remote run (line 481). -/
  returncode : Int
deriving DecidableEq, Repr

/-- Observable state of one host session: the shared policy files plus the
session's sandbox, workspace and flags. -/
structure SessionState where
  policy : PolicyState
  /-- the management DispVM exists in `app.domains`. -/
  dispvmExists : Bool
  /-- the management DispVM is running. -/
  dispvmRunning : Bool
  /-- `self.temp_dir` exists on disk. -/
  tempDirExists : Bool
  /-- the transport archive `{temp_dir.parent}/{temp_dir.name}.tar` exists. -/
  tarExists : Bool
  /-- `self.dispvm_initially_running`, set to `False` in `__init__`
  (line 122) and read in the `finally` block (line 494); never assigned
  anywhere else. -/
  dispvm_initially_running : Bool
  /-- `self._dispvm_initially_running` (note the leading underscore): the
  attribute `_start_mgmt_disp_vm` assigns (line 433) from
  `self.vm.is_running()`; `none` until that line runs.  No code reads it. -/
  underscore_dispvm_initially_running : Option Bool
deriving DecidableEq, Repr

/-- Outcome of `QubesPlayExecutor.run`: the returned tuple's remote exit
code, or a raised exception. -/
inductive RunOutcome
  | ok (retcode : Int)
  | raised
deriving DecidableEq, Repr

/-- `QubesPlayExecutor.run` (lines 438-498) as a state transformer.
Control flow mirrors the source: target lookup raising `KeyError`
(lines 441-443); `_start_mgmt_disp_vm` (lines 417-436) creating the
sandbox when absent, assigning `self._dispvm_initially_running =
self.vm.is_running()` and starting the sandbox when halted;
`_add_rpc_policies()` (line 448); `self.temp_dir.mkdir()` (line 449,
before the `try`); the `try` body (lines 451-489); and the `finally`
block (lines 491-498) running `_remove_rpc_policies()`, `shutil.rmtree`,
and — when `self.dispvm_initially_running` is falsy — shutdown and the
wait-until-halted loop. -/
def QubesPlayExecutor_run (o : Oracle) (pol : PolicyState) (src dst : String) :
    RunOutcome × SessionState :=
  let s0 : SessionState :=
    { policy := pol
      dispvmExists := o.dispvmFound
      dispvmRunning := o.dispvmFound && o.dispvmRunning
      tempDirExists := false
      tarExists := false
      dispvm_initially_running := false
      underscore_dispvm_initially_running := none }
  if !o.vmFound then (RunOutcome.raised, s0)
  else
    -- _start_mgmt_disp_vm: a freshly created DispVM is not yet running
    let s1 := if o.dispvmFound then s0 else { s0 with dispvmExists := true, dispvmRunning := false }
    let s2 := { s1 with underscore_dispvm_initially_running := some o.vmRunning }
    let s3 := if !s2.dispvmRunning then { s2 with dispvmRunning := true } else s2
    -- _add_rpc_policies()
    let s4 := { s3 with policy := add_rpc_policies src dst s3.policy }
    -- self.temp_dir.mkdir() — outside the try block
    if !o.mkdirOk then (RunOutcome.raised, s4)
    else
      let s5 := { s4 with tempDirExists := true }
      -- try body
      let body :=
        if !o.prepOk then (RunOutcome.raised, s5)
        else if !o.tarOk then (RunOutcome.raised, s5)
        else
          let s5' := { s5 with tarExists := true }
          if !o.rpcOk then (RunOutcome.raised, s5')
          else (RunOutcome.ok o.returncode, s5')
      -- finally block
      let s6 := { body.2 with policy := remove_rpc_policies src dst body.2.policy }
      let s7 := { s6 with tempDirExists := false }
      let s8 := if !s7.dispvm_initially_running then { s7 with dispvmRunning := false } else s7
      (body.1, s8)

/- ================================================================
   Dispatch Coordinator — `StrategyModule.proxy_run` (lines 569-599)
   and `StrategyModule.run` (lines 601-632)
   ================================================================ -/

/-- Per-host session outcome seen by the coordinator: `some rc` when the
session returned a result tuple with exit code `rc` (the success callback
fires), `none` when it raised (the error callback fires and the preset
value survives). -/
def sessionCode : Option Int → Int
  | some rc => rc
  | none => 255

/-- The per-host codes held in `self.qubes_results` after `pool.join()`:
each host's entry is preset to 255 (line 578) and overwritten by
`collect_result` (line 567) only when its session returned. -/
def proxy_codes (hosts : List String) (outcome : String → Option Int) : List Int :=
  hosts.map fun h => sessionCode (outcome h)

/-- `max(self.qubes_results.values())` (line 599).  `proxy_run` is only
reached with a nonempty host list (`StrategyModule.run` guards it with
`if remote_hosts:`); on `[]` the Python `max` would raise, here `getD 0`
is a don't-care default. -/
def proxy_run_ret (hosts : List String) (outcome : String → Option Int) : Int :=
  ((proxy_codes hosts outcome).max?).getD 0

/-- The statistics loop (lines 592-597): every host with code 0 increments
`ok`, every other host increments `failures`. -/
def proxy_stats : List Int → Nat × Nat
  | [] => (0, 0)
  | c :: rest =>
      let acc := proxy_stats rest
      if c == 0 then (acc.1 + 1, acc.2) else (acc.1, acc.2 + 1)

/-- The host partition of `StrategyModule.run` (lines 604-611):
`local_hosts = [h for h in target_hosts if h.name == "localhost"]` and
`remote_hosts = [h for h in target_hosts if h.name != "localhost"]`. -/
def partition_hosts (target_hosts : List String) : List String × List String :=
  (target_hosts.filter fun h => h == "localhost",
   target_hosts.filter fun h => !(h == "localhost"))

/-- `StrategyModule.run` (lines 601-632): run the local partition through
the plain linear strategy (its return value is the external collaborator's
code `localRet`), run the remote partition through `proxy_run`, both
defaulting to `RUN_OK = 0` when the partition is empty, and return
`max(retval_local_exec, retval_remote_exec)`. -/
def StrategyModule_run (target_hosts : List String) (localRet : Int)
    (outcome : String → Option Int) : Int :=
  let parts := partition_hosts target_hosts
  let retval_local_exec := if parts.1.isEmpty then 0 else localRet
  let retval_remote_exec := if parts.2.isEmpty then 0 else proxy_run_ret parts.2 outcome
  max retval_local_exec retval_remote_exec

/- ================================================================
   Concrete inputs used by counterexamples and witnesses
   ================================================================ -/

/-- Spec-side predicate for the amended C4: a capability line is removed
exactly when its subject (third) field equals the revoked subject,
whatever its object field holds. -/
def specCapabilitySubjectMatch (subject : String) (line : PolicyLine) : Bool :=
  4 ≤ line.length && line.get? 2 == some subject

/-- The C3 test vector: `ESC [ 1 ; 3 1 m H E L L O` followed by
`ESC [ 9 9 m`. -/
def c3Input : List Nat :=
  [0x1b, 0x5b, 0x31, 0x3b, 0x33, 0x31, 0x6d,
   0x48, 0x45, 0x4c, 0x4c, 0x4f,
   0x1b, 0x5b, 0x39, 0x39, 0x6d]

/-- Empty policy files. -/
def pol0 : PolicyState := { includeFile := [], ansibleFile := [] }

/-- Oracle for C1's counterexample: the session reaches the grant step and
then `self.temp_dir.mkdir()` raises (everything else would succeed). -/
def c1Oracle : Oracle :=
  { vmFound := true, vmRunning := false, dispvmFound := false, dispvmRunning := false,
    mkdirOk := false, prepOk := true, tarOk := true, rpcOk := true, returncode := 0 }

/-- Oracle for C1's amended-claim witness: a failing RPC step with
everything before it succeeding. -/
def c1WitnessOracle : Oracle :=
  { vmFound := true, vmRunning := false, dispvmFound := false, dispvmRunning := false,
    mkdirOk := true, prepOk := true, tarOk := true, rpcOk := false, returncode := 0 }

/-- Oracle for C2: the sandbox is found already running, the target is
halted, and the whole session succeeds. -/
def c2Oracle : Oracle :=
  { vmFound := true, vmRunning := false, dispvmFound := true, dispvmRunning := true,
    mkdirOk := true, prepOk := true, tarOk := true, rpcOk := true, returncode := 0 }

/-- Oracle for C8: a fully successful session. -/
def c8Oracle : Oracle :=
  { vmFound := true, vmRunning := false, dispvmFound := false, dispvmRunning := false,
    mkdirOk := true, prepOk := true, tarOk := true, rpcOk := true, returncode := 0 }

/-- Oracle for C8's amended-claim witness: the RPC step fails after the
archive was built. -/
def c8WitnessOracle : Oracle :=
  { vmFound := true, vmRunning := true, dispvmFound := true, dispvmRunning := false,
    mkdirOk := true, prepOk := true, tarOk := true, rpcOk := false, returncode := 0 }

/-- The session outcome map used by C6's witness: host "a" returns code 2,
every other session raises. -/
def c6Outcome : String → Option Int :=
  fun h => if h == "a" then some 2 else none

/- ================================================================
   Theorems
   ================================================================ -/

theorem specPassByte_eq_isSafeByte (b : Nat) : specPassByte b = isSafeByte b := by
  simp only [specPassByte, isSafeByte, List.contains]
  rw [Bool.eq_iff_iff]
  simp
  tauto

theorem filter_control_chars_length (x : List Nat) :
    (filter_control_chars x).length = x.length := by
  induction x using filter_control_chars.induct <;>
    simp_all [filter_control_chars] <;> split <;> simp_all <;> omega

theorem filter_control_chars_eq_sanitizeSpec (x : List Nat) :
    filter_control_chars x = sanitizeSpec x := by
  induction x using filter_control_chars.induct with
  | case1 => rfl
  | case2 rest ih => simp_all [filter_control_chars, sanitizeSpec]
  | case3 a s t c m rest hg ih =>
      simp_all [filter_control_chars, sanitizeSpec]
  | case4 a s t c m rest h2 hg ih =>
      simp only [Bool.and_eq_true, Bool.or_eq_true, beq_iff_eq, decide_eq_true_eq] at hg
      simp only [filter_control_chars, sanitizeSpec, Bool.and_eq_true, Bool.or_eq_true,
        beq_iff_eq, decide_eq_true_eq]
      rw [if_neg (by tauto), if_neg (by tauto)]
      simp only [filter_control_chars, sanitizeSpec, isSafeByte, placeholderByte,
        specPassByte_eq_isSafeByte] at ih ⊢
      simp_all
      have hng2 : ¬ ((a = 48 ∨ a = 49) ∧ s = 59 ∧ t = 51 ∧ (48 ≤ c ∧ c ≤ 55) ∧ m = 109) := by
        rintro ⟨ha, hs, ht, ⟨hc1, hc2⟩, hm⟩
        exact absurd (hg hm ha hs ht hc1) (by omega)
      rw [if_neg hng2]
  | case5 b rest h1 h2 ih =>
      simp_all [filter_control_chars, sanitizeSpec, specPassByte_eq_isSafeByte]

/-- Unfolding lemma for the generic single-byte arm of
`filter_control_chars`: when the head byte is not ESC, neither escape arm
can match. -/
theorem filter_cons_ne_esc (b : Nat) (hb : b ≠ 0x1b) (rest : List Nat) :
    filter_control_chars (b :: rest)
      = (if isSafeByte b then b else placeholderByte) :: filter_control_chars rest := by
  rw [filter_control_chars.eq_def]
  split <;> simp_all

theorem cleanOut_filter (x : List Nat) : CleanOut (filter_control_chars x) := by
  induction x using filter_control_chars.induct with
  | case1 => exact CleanOut.nil
  | case2 rest ih =>
      simp only [filter_control_chars]
      exact CleanOut.reset _ ih
  | case3 a s t c m rest hne hg ih =>
      simp_all [filter_control_chars]
      exact CleanOut.color a c _ hg.1.1.1.2 hg.2.1 hg.2.2 ih
  | case4 a s t c m rest hne hg ih =>
      simp_all [filter_control_chars]
      rw [if_pos (by decide)] at ih
      rw [if_neg (fun hc => absurd
            (lt_of_lt_of_le (hg hc.1.1.1.1 hc.1.1.1.2 hc.1.1.2 hc.1.2 hc.2.1) hc.2.2)
            (lt_irrefl 55)),
        if_neg (by decide), if_pos (by decide)]
      exact CleanOut.safe _ _ (by decide) ih
  | case5 b rest h1 h2 ih =>
      by_cases hb27 : b = 0x1b
      · subst hb27
        rw [filter_control_chars.eq_def]
        split <;> simp_all
        rename_i x b' r' heq
        obtain ⟨hb, hr⟩ := heq
        subst hb hr
        rw [if_neg (by decide)]
        exact CleanOut.safe _ _ (by decide) ih
      · rw [filter_cons_ne_esc b hb27]
        by_cases hsafe : isSafeByte b = true
        · rw [if_pos hsafe]
          exact CleanOut.safe _ _ hsafe ih
        · rw [if_neg hsafe]
          exact CleanOut.safe _ _ (by decide) ih

theorem filter_of_cleanOut (x : List Nat) (hx : CleanOut x) :
    filter_control_chars x = x := by
  induction hx with
  | nil => rfl
  | reset rest h ih => simp only [filter_control_chars, ih]
  | color a c rest ha hc1 hc2 h ih =>
      rcases ha with rfl | rfl <;> simp_all [filter_control_chars]
  | safe b rest hb h ih =>
      have hbne : b ≠ 0x1b := by
        intro hcontra
        subst hcontra
        simp [isSafeByte] at hb
      rw [filter_cons_ne_esc b hbne, hb, if_pos rfl, ih]

/-- Source and spec formulations of the include-file pair match coincide. -/
theorem specIncludePairMatch_eq (src dst : String) (line : PolicyLine) :
    specIncludePairMatch src dst line = includeLineMatches src dst line := rfl

/-- A spec-side capability subject match is exactly the source's removal
regex match on the ansible policy file. -/
theorem specCapabilitySubjectMatch_eq (src : String) (line : PolicyLine) :
    specCapabilitySubjectMatch src line = ansibleLineMatches src line := by
  rcases line with _ | ⟨f1, _ | ⟨f2, _ | ⟨f3, _ | ⟨f4, rest⟩⟩⟩⟩ <;>
    simp [specCapabilitySubjectMatch, ansibleLineMatches]

/-- A capability line matching a (subject, object) pair matches the
subject-only removal regex. -/
theorem specCapabilityPairMatch_imp (src dst : String) (line : PolicyLine)
    (h : specCapabilityPairMatch src dst line = true) : ansibleLineMatches src line = true := by
  rcases line with _ | ⟨f1, _ | ⟨f2, _ | ⟨f3, _ | ⟨f4, rest⟩⟩⟩⟩ <;>
    simp_all [specCapabilityPairMatch, ansibleLineMatches]

/-- After `_remove_rpc_policies`, no include-file line matches the pair. -/
theorem remove_include_countP (src dst : String) (st : PolicyState) :
    (remove_rpc_policies src dst st).includeFile.countP (specIncludePairMatch src dst) = 0 := by
  rw [List.countP_eq_zero]
  intro line hmem
  have := (List.mem_filter.mp hmem).2
  simp_all [specIncludePairMatch_eq, remove_rpc_policies]

/-- After `_remove_rpc_policies`, no ansible-file line has the subject in
its third field (hence none matches the pair either). -/
theorem remove_ansible_countP (src dst : String) (st : PolicyState) :
    (remove_rpc_policies src dst st).ansibleFile.countP (ansibleLineMatches src) = 0 := by
  rw [List.countP_eq_zero]
  intro line hmem
  have := (List.mem_filter.mp hmem).2
  simp_all [remove_rpc_policies]

theorem remove_ansible_pair_countP (src dst : String) (st : PolicyState) :
    (remove_rpc_policies src dst st).ansibleFile.countP (specCapabilityPairMatch src dst) = 0 := by
  rw [List.countP_eq_zero]
  intro line hmem
  intro hc
  have h2 := (List.mem_filter.mp hmem).2
  have := specCapabilityPairMatch_imp src dst line hc
  simp_all

/-- `foldl max` over a list yields one of its elements (Python `max`). -/
theorem foldl_max_mem (a : Int) (l : List Int) : l.foldl max a ∈ a :: l := by
  induction l generalizing a with
  | nil => simp
  | cons b bs ih =>
      rw [List.foldl_cons]
      rcases List.mem_cons.mp (ih (max a b)) with h | h
      · rw [h]
        rcases max_choice a b with hm | hm <;> rw [hm]
        · exact List.mem_cons_self _ _
        · exact List.mem_cons_of_mem _ (List.mem_cons_self _ _)
      · exact List.mem_cons_of_mem _ (List.mem_cons_of_mem _ h)

/-- `foldl max` dominates the seed and every element. -/
theorem foldl_max_le (a : Int) (l : List Int) : ∀ c ∈ a :: l, c ≤ l.foldl max a := by
  induction l generalizing a with
  | nil => simp
  | cons b bs ih =>
      intro c hc
      rcases List.mem_cons.mp hc with rfl | hc
      · exact le_trans (le_max_left c b) (ih (max c b) _ (List.mem_cons_self _ _))
      · rcases List.mem_cons.mp hc with rfl | hc
        · exact le_trans (le_max_right a c) (ih (max a c) _ (List.mem_cons_self _ _))
        · exact ih (max a b) c (List.mem_cons_of_mem _ hc)

/-- On a nonempty code list, `proxy_run_ret` is an attained maximum. -/
theorem proxy_run_ret_spec (hosts : List String) (outcome : String → Option Int)
    (h : hosts ≠ []) :
    proxy_run_ret hosts outcome ∈ proxy_codes hosts outcome
      ∧ ∀ c ∈ proxy_codes hosts outcome, c ≤ proxy_run_ret hosts outcome := by
  rcases hosts with _ | ⟨h0, hs⟩
  · exact absurd rfl h
  · have hform : proxy_run_ret (h0 :: hs) outcome
        = (hs.map fun h' => sessionCode (outcome h')).foldl max (sessionCode (outcome h0)) := rfl
    rw [hform]
    constructor
    · exact foldl_max_mem _ _
    · intro c hc
      exact foldl_max_le _ _ c (by simpa [proxy_codes] using hc)

/-- The statistics loop counts exactly the zero and nonzero codes. -/
theorem proxy_stats_eq_countP (codes : List Int) :
    proxy_stats codes
      = (codes.countP (fun c => c == 0), codes.countP (fun c => !(c == 0))) := by
  induction codes with
  | nil => simp [proxy_stats]
  | cons c rest ih =>
      by_cases hc : c = 0 <;> simp_all [proxy_stats, List.countP_cons, hc]

/-- Whenever the target is found and the workspace `mkdir` succeeds (the
`try` block is entered), the session's final policy state is exactly
revoke-after-grant, on every exit path. -/
theorem run_policy_eq (o : Oracle) (pol : PolicyState) (src dst : String)
    (hvm : o.vmFound = true) (hmk : o.mkdirOk = true) :
    (QubesPlayExecutor_run o pol src dst).2.policy
      = remove_rpc_policies src dst (add_rpc_policies src dst pol) := by
  simp only [QubesPlayExecutor_run, hvm, hmk, Bool.not_true, Bool.false_eq_true, if_false]
  repeat' split
  all_goals rfl

/-- Final workspace/archive state of a session that reached `_build_tar`:
the `finally` block's `shutil.rmtree` deletes the workspace, but nothing
ever deletes the sibling tar file. -/
theorem run_workspace_archive (o : Oracle) (pol : PolicyState) (src dst : String)
    (hvm : o.vmFound = true) (hmk : o.mkdirOk = true)
    (hprep : o.prepOk = true) (htar : o.tarOk = true) :
    (QubesPlayExecutor_run o pol src dst).2.tempDirExists = false
    ∧ (QubesPlayExecutor_run o pol src dst).2.tarExists = true := by
  simp only [QubesPlayExecutor_run, hvm, hmk, hprep, htar, Bool.not_true,
    Bool.false_eq_true, if_false]
  repeat' split
  all_goals simp_all

/- ================================================================
   Claim theorems
   ================================================================ -/

/-- C1 (counterexample): the claim "both policy grant records are removed
... on every exit path including failure" fails on the exit path where
`self.temp_dir.mkdir()` (line 449, between `_add_rpc_policies()` and the
`try` block) raises: `run` raises and the grant for
(`disp-mgmt-work`, `work`) is still present in both policy files. -/
theorem C1_counterexample :
    (QubesPlayExecutor_run c1Oracle pol0 (dispvm_mgmt_name "work") "work").1
        = RunOutcome.raised
    ∧ includeGrantLine (dispvm_mgmt_name "work") "work"
        ∈ (QubesPlayExecutor_run c1Oracle pol0
            (dispvm_mgmt_name "work") "work").2.policy.includeFile
    ∧ (QubesPlayExecutor_run c1Oracle pol0 (dispvm_mgmt_name "work") "work").2.policy.ansibleFile
        ≠ [] := by decide

/-- C1 (amended): on every exit path of `QubesPlayExecutor.run` on which
the workspace `mkdir` between the grant and the `try` block succeeds —
success or failure of any later step — no line for the (subject, object)
pair remains in either policy file, and none of the five capability grant
lines survives. -/
theorem C1_grants_revoked (o : Oracle) (pol : PolicyState) (src dst : String)
    (hvm : o.vmFound = true) (hmk : o.mkdirOk = true) :
    ((QubesPlayExecutor_run o pol src dst).2.policy.includeFile.countP
        (specIncludePairMatch src dst) = 0)
    ∧ ((QubesPlayExecutor_run o pol src dst).2.policy.ansibleFile.countP
        (specCapabilityPairMatch src dst) = 0)
    ∧ ∀ l ∈ ansibleGrantLines src dst,
        l ∉ (QubesPlayExecutor_run o pol src dst).2.policy.ansibleFile := by
  rw [run_policy_eq o pol src dst hvm hmk]
  refine ⟨remove_include_countP _ _ _, remove_ansible_pair_countP _ _ _, ?_⟩
  intro l hl hmem
  have h2 := (List.mem_filter.mp hmem).2
  have h3 : ansibleLineMatches src l = true := by
    fin_cases hl <;> simp [ansibleLineMatches]
  simp_all

/-- C1 (witness): the amended theorem applied to a concrete failing
session (the RPC step raises) with concrete names. -/
theorem C1_grants_revoked_witness :
    ((QubesPlayExecutor_run c1WitnessOracle pol0 "S" "D").2.policy.includeFile.countP
        (specIncludePairMatch "S" "D") = 0)
    ∧ ((QubesPlayExecutor_run c1WitnessOracle pol0 "S" "D").2.policy.ansibleFile.countP
        (specCapabilityPairMatch "S" "D") = 0)
    ∧ ∀ l ∈ ansibleGrantLines "S" "D",
        l ∉ (QubesPlayExecutor_run c1WitnessOracle pol0 "S" "D").2.policy.ansibleFile :=
  C1_grants_revoked c1WitnessOracle pol0 "S" "D" rfl rfl

/-- C2 (code evaluation at the failing input): the sandbox is found
already running before the session and the session succeeds, yet at
session end the sandbox has been shut down; the attribute assigned by
`_start_mgmt_disp_vm` is `self._dispvm_initially_running` holding the
TARGET's power state, while the attribute the `finally` block reads,
`self.dispvm_initially_running`, still holds its `__init__` value
`False`. -/
theorem C2_code_eval :
    c2Oracle.dispvmRunning = true
    ∧ (QubesPlayExecutor_run c2Oracle pol0 "S" "D").1 = RunOutcome.ok 0
    ∧ (QubesPlayExecutor_run c2Oracle pol0 "S" "D").2.dispvmRunning = false
    ∧ (QubesPlayExecutor_run c2Oracle pol0 "S" "D").2.underscore_dispvm_initially_running
        = some c2Oracle.vmRunning
    ∧ c2Oracle.vmRunning = false
    ∧ (QubesPlayExecutor_run c2Oracle pol0 "S" "D").2.dispvm_initially_running = false := by
  decide

/-- C3 (counterexample): on the given 17-byte input the output is NOT
"the first 14 bytes unchanged followed by four placeholder bytes" (that
shape would even have 18 bytes). -/
theorem C3_counterexample :
    ¬ (filter_control_chars c3Input
        = c3Input.take 14 ++ List.replicate 4 placeholderByte) := by decide

/-- C3 (amended): the first 12 bytes (`ESC[1;31mHELLO`) pass unchanged;
of the malformed `ESC[99m` only the ESC byte is replaced by the
placeholder, while `[99m` are printable and pass through; the output
length equals the input length (17). -/
theorem C3_sanitizer_eval :
    filter_control_chars c3Input
        = c3Input.take 12 ++ [placeholderByte, 0x5b, 0x39, 0x39, 0x6d]
    ∧ (filter_control_chars c3Input).length = c3Input.length := by decide

/-- C4 (counterexample): a capability line for the SAME subject but a
DIFFERENT object — which the claim requires to be preserved — is removed
by `revoke`, because the removal regex for the ansible policy file only
matches the subject field. -/
theorem C4_counterexample :
    specCapabilityPairMatch "S" "D1" ["qubes.Filecopy", "*", "S", "D2", "allow"] = false
    ∧ (remove_rpc_policies "S" "D1"
          { includeFile := [],
            ansibleFile := [["qubes.Filecopy", "*", "S", "D2", "allow"]] }).ansibleFile
        ≠ [["qubes.Filecopy", "*", "S", "D2", "allow"]] := by decide

/-- C4 (amended): `revoke(subject, object)` removes, in the include file,
exactly the lines whose (subject, object) pair matches; in the capability
file, exactly the lines whose subject (third) field equals the subject —
regardless of their object field; all surviving lines keep their relative
order (sublist), and revoke is a no-op when no line matches. -/
theorem C4_revoke_filters (src dst : String) (st : PolicyState) :
    ((remove_rpc_policies src dst st).includeFile
        = st.includeFile.filter (fun l => !(specIncludePairMatch src dst l)))
    ∧ ((remove_rpc_policies src dst st).ansibleFile
        = st.ansibleFile.filter (fun l => !(specCapabilitySubjectMatch src l)))
    ∧ (remove_rpc_policies src dst st).includeFile.Sublist st.includeFile
    ∧ (remove_rpc_policies src dst st).ansibleFile.Sublist st.ansibleFile
    ∧ ((∀ l ∈ st.includeFile, specIncludePairMatch src dst l = false) →
       (∀ l ∈ st.ansibleFile, specCapabilitySubjectMatch src l = false) →
       remove_rpc_policies src dst st = st) := by
  refine ⟨rfl, ?_, List.filter_sublist _, List.filter_sublist _, ?_⟩
  · exact (List.filter_congr fun l _ => by rw [specCapabilitySubjectMatch_eq]).symm
  · intro h1 h2
    have hi : st.includeFile.filter (fun l => !(includeLineMatches src dst l)) = st.includeFile :=
      List.filter_eq_self.mpr fun l hl => by
        rw [← specIncludePairMatch_eq, h1 l hl]
        rfl
    have ha : st.ansibleFile.filter (fun l => !(ansibleLineMatches src l)) = st.ansibleFile :=
      List.filter_eq_self.mpr fun l hl => by
        rw [← specCapabilitySubjectMatch_eq, h2 l hl]
        rfl
    cases st
    simp_all [remove_rpc_policies]

/-- C4 (witness): revoke leaves a file with only unrelated lines
untouched. -/
theorem C4_revoke_filters_witness :
    remove_rpc_policies "S" "D"
        { includeFile := [["A", "B", "x", "allow"]],
          ansibleFile := [["v", "*", "T", "U", "allow"]] }
      = { includeFile := [["A", "B", "x", "allow"]],
          ansibleFile := [["v", "*", "T", "U", "allow"]] } :=
  (C4_revoke_filters "S" "D" _).2.2.2.2 (by decide) (by decide)

/-- C5: for every prior content, two grants for (subject, object)
followed by one revoke leave zero lines matching the pair in either file;
before the revoke, the doubled grant really had put at least 2 matching
include lines and 8 matching capability lines there. -/
theorem C5_double_grant_single_revoke (src dst : String) (st : PolicyState) :
    ((remove_rpc_policies src dst
          (add_rpc_policies src dst (add_rpc_policies src dst st))).includeFile.countP
        (specIncludePairMatch src dst) = 0)
    ∧ ((remove_rpc_policies src dst
          (add_rpc_policies src dst (add_rpc_policies src dst st))).ansibleFile.countP
        (specCapabilityPairMatch src dst) = 0)
    ∧ 2 ≤ (add_rpc_policies src dst (add_rpc_policies src dst st)).includeFile.countP
        (specIncludePairMatch src dst)
    ∧ 8 ≤ (add_rpc_policies src dst (add_rpc_policies src dst st)).ansibleFile.countP
        (specCapabilityPairMatch src dst) := by
  refine ⟨remove_include_countP _ _ _, remove_ansible_pair_countP _ _ _, ?_, ?_⟩
  · simp [add_rpc_policies, List.countP_append, includeGrantLine, specIncludePairMatch,
      List.countP_cons]
  · by_cases hd : dst = "dom0" <;>
      simp [add_rpc_policies, List.countP_append, ansibleGrantLines, specCapabilityPairMatch,
        List.countP_cons, hd] <;>
      (repeat' split) <;> omega

/-- C6: over a nonempty remote partition, `proxy_run`'s return value is an
attained maximum of the per-host codes; a host whose session raised keeps
the preset sentinel 255; the statistics count exactly the zero codes as
`ok` and the nonzero codes as `failures`; and `StrategyModule.run`
combines the two partitions' codes with `max` (empty partitions
contributing `RUN_OK = 0`). -/
theorem C6_aggregation (hosts : List String) (outcome : String → Option Int)
    (h : hosts ≠ []) :
    (proxy_run_ret hosts outcome ∈ proxy_codes hosts outcome
      ∧ ∀ c ∈ proxy_codes hosts outcome, c ≤ proxy_run_ret hosts outcome)
    ∧ (∀ h' ∈ hosts, outcome h' = none → sessionCode (outcome h') = 255)
    ∧ proxy_stats (proxy_codes hosts outcome)
        = ((proxy_codes hosts outcome).countP (fun c => c == 0),
           (proxy_codes hosts outcome).countP (fun c => !(c == 0)))
    ∧ ∀ localRet : Int,
        StrategyModule_run hosts localRet outcome
          = max (if (partition_hosts hosts).1.isEmpty then 0 else localRet)
              (if (partition_hosts hosts).2.isEmpty then 0
               else proxy_run_ret (partition_hosts hosts).2 outcome) := by
  refine ⟨proxy_run_ret_spec hosts outcome h, ?_, proxy_stats_eq_countP _, fun _ => rfl⟩
  intro h' _ hnone
  simp [sessionCode, hnone]

/-- C6 (witness): with host "a" returning code 2 and host "b" raising,
the coordinator's return value is one of the per-host codes. -/
theorem C6_aggregation_witness :
    proxy_run_ret ["a", "b"] c6Outcome ∈ proxy_codes ["a", "b"] c6Outcome :=
  (C6_aggregation ["a", "b"] c6Outcome (by decide)).1.1

/-- C7: for every input byte string the sanitizer preserves the length
exactly, and its output coincides, byte for byte, with the spec-worded
scan (`sanitizeSpec`): printable 0x20-0x7E and the whitelisted control
bytes pass unchanged, the SGR-reset and the whitelisted 7-byte color
sequences pass verbatim, and every other byte is replaced 1:1 by the
placeholder. -/
theorem C7_sanitizer_contract (x : List Nat) :
    (filter_control_chars x).length = x.length
    ∧ filter_control_chars x = sanitizeSpec x :=
  ⟨filter_control_chars_length x, filter_control_chars_eq_sanitizeSpec x⟩

/-- C8 (counterexample): after a fully successful session the workspace
directory is gone but the transport archive still exists — nothing in
`run`'s `finally` block (lines 491-498) deletes the tar file built as a
SIBLING of `self.temp_dir` (line 362), so the claim that both are deleted
is false. -/
theorem C8_counterexample :
    (QubesPlayExecutor_run c8Oracle pol0 "S" "D").1 = RunOutcome.ok 0
    ∧ (QubesPlayExecutor_run c8Oracle pol0 "S" "D").2.tarExists = true
    ∧ (QubesPlayExecutor_run c8Oracle pol0 "S" "D").2.tempDirExists = false := by decide

/-- C8 (amended): for every session that reaches the workspace-build step
and builds the archive, the private workspace directory is deleted by
session end regardless of outcome, but the transport archive is NOT
deleted — it persists after the session ends. -/
theorem C8_workspace_deleted_archive_persists (o : Oracle) (pol : PolicyState)
    (src dst : String) (hvm : o.vmFound = true) (hmk : o.mkdirOk = true)
    (hprep : o.prepOk = true) (htar : o.tarOk = true) :
    (QubesPlayExecutor_run o pol src dst).2.tempDirExists = false
    ∧ (QubesPlayExecutor_run o pol src dst).2.tarExists = true :=
  run_workspace_archive o pol src dst hvm hmk hprep htar

/-- C8 (witness): the amended theorem at a concrete failing session (the
RPC step raises after the archive is built). -/
theorem C8_workspace_witness :
    (QubesPlayExecutor_run c8WitnessOracle pol0 "S" "D").2.tempDirExists = false
    ∧ (QubesPlayExecutor_run c8WitnessOracle pol0 "S" "D").2.tarExists = true :=
  C8_workspace_deleted_archive_persists c8WitnessOracle pol0 "S" "D" rfl rfl rfl rfl

/-- C9 (code evaluation at the failing input of the repo's own test
`test_proxy_routing_dom0_host`): `StrategyModule.run` partitions by
`host.name == "localhost"` only, so `dom0` — the control point's own
identity — lands in the REMOTE (proxied) partition. -/
theorem C9_partition_eval :
    partition_hosts ["localhost", "dom0", "work1", "work2"]
        = (["localhost"], ["dom0", "work1", "work2"])
    ∧ "dom0" ∈ (partition_hosts ["localhost", "dom0", "work1", "work2"]).2 := by decide

/-- C10: the sanitizer is idempotent — every byte or escape sequence it
emits passes through unchanged on a second scan. -/
theorem C10_sanitizer_idempotent (x : List Nat) :
    filter_control_chars (filter_control_chars x) = filter_control_chars x :=
  filter_of_cleanOut _ (cleanOut_filter x)
